import Mathlib

/-!
Shallow embedding of the authentication core of passwall-server
(internal/api/auth.go and model/auth.go), together with proofs of the
specified properties.

External collaborators (user store, subscription store, email transport,
JWT library, JSON decoding) are out of scope per the specification; the
handlers only branch on their outcomes, so each outcome is a parameter of
the corresponding handler model. All control flow, response statuses,
response messages and cache mutations are translated from auth.go.
-/

namespace Passwall

/-- Value stored in the go-cache verification cache. The cache stores
`interface\x7b\x7d`; auth.go only ever stores strings, but every read
type-asserts to string, so a non-string possibility is kept. -/
inductive CacheVal where
  | str (s : String)
  | nonstr
deriving DecidableEq

/-- The process-wide verification-code cache `c`, as a map from email to an
optional cached value; `none` models both absence and TTL eviction. -/
abbrev Cache := String → Option CacheVal

/-- Model of `c.Set(email, v, cache.DefaultExpiration)`: overwrite-or-insert. -/
def cacheSet (cache : Cache) (email : String) (v : CacheVal) : Cache :=
  fun e => if e = email then some v else cache e

/-- Message constants from the `var` block of auth.go. -/
def userLoginErr : String := "User email or master password is wrong."

/-- Message constant `invalidUser` from auth.go. -/
def invalidUser : String := "Invalid user"

/-- Message constant `invalidToken` from auth.go. -/
def invalidToken : String := "Token is expired or not valid!"

/-- Message constant `noToken` from auth.go (trailing space is in the source). -/
def noToken : String := "Token could not found! "

/-- Message constant `tokenCreateErr` from auth.go. -/
def tokenCreateErr : String := "Token could not be created"

/-- Message constant `signupSuccess` from auth.go. -/
def signupSuccess : String := "User created successfully"

/-- Message constant `verifySuccess` from auth.go. -/
def verifySuccess : String := "Email verified successfully"

/-- Message constant `codeSuccess` from auth.go. -/
def codeSuccess : String := "Code created successfully"

/-- Helper constant `InvalidRequestPayload` of the api package; its exact
text is not load-bearing for any claim. -/
def InvalidRequestPayload : String := "Invalid request payload"

/-- Helper constant `InvalidJSON` of the api package; its exact text is not
load-bearing for any claim. -/
def InvalidJSON : String := "Invalid JSON"

/-- Subscription tier strings used in `AuthLoginResponse.Type`. -/
def AuthLoginResponse.proTier : String := "pro"

/-- The free tier string. -/
def AuthLoginResponse.freeTier : String := "free"

/-- Model of `model.AuthLoginResponse`: only the fields the claims inspect
(`Type` and `TransmissionKey`); the embedded user and subscription DTOs are
pass-through data from the external stores. -/
structure AuthLoginResponse where
  type : String
  transmissionKey : String
deriving DecidableEq

/-- The observable outcome a handler writes to the `http.ResponseWriter`:
the api helpers `RespondWithError`, `RespondWithErrors`, `RespondWithJSON`,
`RespondWithToken`, a bare `w.WriteHeader`, or a Go runtime panic raised by
a failed dynamic type assertion. -/
inductive HResult where
  | respondWithError (status : Nat) (message : String)
  | respondWithErrors (status : Nat) (message : String)
  | writeHeader (status : Nat)
  | respondWithJSON (status : Nat) (message : String)
  | respondWithToken (status : Nat) (resp : AuthLoginResponse)
  | typeAssertPanic
deriving DecidableEq

/-- Mutating calls a handler makes into the external user store. -/
inductive StoreEffect where
  | createUser
  | deleteUser
deriving DecidableEq

/-- Result of a handler together with the user-store mutations it issued,
in order. -/
structure HandlerOutcome where
  result : HResult
  effects : List StoreEffect
deriving DecidableEq

/-- isMailVerified from auth.go: `nil` (here `.ok`) exactly when the cache
holds the string `verified` for the email; otherwise an error naming the
failure (absent entry, non-string entry, or a different string). -/
def isMailVerified (cache : Cache) (email : String) : Except String Unit :=
  match cache email with
  | none => .error ("can\'t find email " ++ email ++ " in cache")
  | some .nonstr => .error "can\'t convert cached email data to string"
  | some (.str verified) =>
    if verified != "verified" then
      .error ("cached email value " ++ verified ++ " doesn\'t match for email " ++ email)
    else
      .ok ()

/-- VerifyCode from auth.go. `email` comes from the form value, `userCode`
from the route variable. Returns the response and the cache after the
handler ran. -/
def VerifyCode (cache : Cache) (email userCode : String) : HResult × Cache :=
  match cache email with
  | none => (.respondWithError 400 "Code couldn\'t found!", cache)
  | some .nonstr => (.respondWithError 500 "Server error!", cache)
  | some (.str confirmationCode) =>
    if userCode != confirmationCode then
      (.respondWithError 400 "Code doesn\'t match!", cache)
    else
      (.respondWithJSON 200 verifySuccess, cacheSet cache email (.str "verified"))

/-- Outcomes of the external calls Signup makes, in source order: JSON
decoding of the body, `app.PayloadValidator`, `s.Users().FindByEmail`
(`userExists` is `err == nil`), and `app.CreateUser` with its error text. -/
structure SignupInput where
  decodeOk : Bool
  email : String
  payloadValid : Bool
  userExists : Bool
  createOk : Bool
  createErrMsg : String
deriving DecidableEq

/-- Signup from auth.go: decode, verified-email gate, payload validation,
duplicate-email check, then `app.CreateUser`; the admin notification after
a successful create is best-effort and does not change the outcome. -/
def Signup (cache : Cache) (inp : SignupInput) : HandlerOutcome :=
  if inp.decodeOk = false then
    ⟨.respondWithError 400 "Invalid request payload", []⟩
  else
    match isMailVerified cache inp.email with
    | .error _ => ⟨.respondWithError 401 "Email is not verified", []⟩
    | .ok _ =>
      if inp.payloadValid = false then
        ⟨.respondWithErrors 400 InvalidRequestPayload, []⟩
      else if inp.userExists then
        ⟨.respondWithError 400 "User couldn\'t created!", []⟩
      else if inp.createOk = false then
        ⟨.respondWithError 500 inp.createErrMsg, [.createUser]⟩
      else
        ⟨.respondWithJSON 200 signupSuccess, [.createUser]⟩

/-- Outcomes of the external calls RecoverDelete makes: the email route
variable, `s.Users().FindByEmail` with its error text, and
`s.Users().Delete` with its error text. -/
structure RecoverDeleteInput where
  email : String
  userFound : Bool
  findErrMsg : String
  deleteOk : Bool
  deleteErrMsg : String
deriving DecidableEq

/-- RecoverDelete from auth.go: verified-email gate, user lookup by email,
then delete by identity. -/
def RecoverDelete (cache : Cache) (inp : RecoverDeleteInput) : HandlerOutcome :=
  match isMailVerified cache inp.email with
  | .error _ => ⟨.respondWithError 401 "Email is not verified", []⟩
  | .ok _ =>
    if inp.userFound = false then
      ⟨.respondWithError 404 inp.findErrMsg, []⟩
    else if inp.deleteOk = false then
      ⟨.respondWithError 404 inp.deleteErrMsg, [.deleteUser]⟩
    else
      ⟨.respondWithJSON 200 "User deleted successfully!", [.deleteUser]⟩

/-- The cache holds exactly the string `verified` for `email` iff
isMailVerified succeeds. -/
theorem isMailVerified_ok_iff (cache : Cache) (email : String) :
    isMailVerified cache email = .ok () ↔ cache email = some (.str "verified") := by
  unfold isMailVerified
  cases h : cache email with
  | none => simp
  | some v =>
    cases v with
    | str s =>
      by_cases hs : s = "verified"
      · subst hs; simp
      · simp [hs, bne_iff_ne]
    | nonstr => simp

/-- Signup on a request whose body decoded but whose email is not marked
verified in the cache answers 401 without touching the user store. -/
theorem signup_unverified_eq (cache : Cache) (si : SignupInput)
    (hd : si.decodeOk = true) (hv : cache si.email ≠ some (.str "verified")) :
    Signup cache si = ⟨.respondWithError 401 "Email is not verified", []⟩ := by
  have hvv : isMailVerified cache si.email ≠ .ok () := by
    intro h; exact hv ((isMailVerified_ok_iff cache si.email).mp h)
  unfold Signup
  rw [hd]
  simp only [Bool.true_eq_false, if_false]
  split
  · rfl
  · rename_i u heq
    cases u
    exact absurd heq hvv

/-- RecoverDelete on an email not marked verified in the cache answers 401
without touching the user store. -/
theorem recover_unverified_eq (cache : Cache) (ri : RecoverDeleteInput)
    (hv : cache ri.email ≠ some (.str "verified")) :
    RecoverDelete cache ri = ⟨.respondWithError 401 "Email is not verified", []⟩ := by
  have hvv : isMailVerified cache ri.email ≠ .ok () := by
    intro h; exact hv ((isMailVerified_ok_iff cache ri.email).mp h)
  unfold RecoverDelete
  split
  · rfl
  · rename_i u heq
    cases u
    exact absurd heq hvv

/-- VerifyCode with no cache entry answers the code-not-found 400 and
leaves the cache unchanged. -/
theorem verifyCode_none_eq (cache : Cache) (email userCode : String)
    (h : cache email = none) :
    VerifyCode cache email userCode
      = (.respondWithError 400 "Code couldn\'t found!", cache) := by
  unfold VerifyCode
  rw [h]

/-- VerifyCode with a differing submitted code answers the code-mismatch
400 and leaves the cache unchanged. -/
theorem verifyCode_mismatch_eq (cache : Cache) (email userCode s : String)
    (h : cache email = some (.str s)) (hne : userCode ≠ s) :
    VerifyCode cache email userCode
      = (.respondWithError 400 "Code doesn\'t match!", cache) := by
  unfold VerifyCode
  rw [h]
  simp [bne_iff_ne, hne]

/-- VerifyCode with the matching submitted code overwrites the entry with
`verified`. -/
theorem verifyCode_match_eq (cache : Cache) (email userCode s : String)
    (h : cache email = some (.str s)) (heq : userCode = s) :
    VerifyCode cache email userCode
      = (.respondWithJSON 200 verifySuccess, cacheSet cache email (.str "verified")) := by
  unfold VerifyCode
  rw [h]
  subst heq
  simp

/-- C1: a user record is created by Signup or deleted by RecoverDelete only
if the cache holds exactly the string `verified` for the email at the time
of the check; if the entry is absent or holds any other value, the flow
terminates with the email-not-verified failure (401, message
`Email is not verified`) before any user-store create or delete call. -/
theorem c1_verified_gate (cache : Cache) (si : SignupInput) (ri : RecoverDeleteInput) :
    (StoreEffect.createUser ∈ (Signup cache si).effects →
       cache si.email = some (.str "verified"))
    ∧ (StoreEffect.deleteUser ∈ (RecoverDelete cache ri).effects →
       cache ri.email = some (.str "verified"))
    ∧ (si.decodeOk = true → cache si.email ≠ some (.str "verified") →
       Signup cache si = ⟨.respondWithError 401 "Email is not verified", []⟩)
    ∧ (cache ri.email ≠ some (.str "verified") →
       RecoverDelete cache ri = ⟨.respondWithError 401 "Email is not verified", []⟩) := by
  refine ⟨?_, ?_, ?_, ?_⟩
  · intro hmem
    unfold Signup at hmem
    split at hmem
    · simp at hmem
    · have hv := isMailVerified_ok_iff cache si.email
      split at hmem
      · simp at hmem
      · rename_i u heq
        cases u
        exact hv.mp heq
  · intro hmem
    unfold RecoverDelete at hmem
    have hv := isMailVerified_ok_iff cache ri.email
    split at hmem
    · simp at hmem
    · rename_i u heq
      cases u
      exact hv.mp heq
  · exact signup_unverified_eq cache si
  · exact recover_unverified_eq cache ri

/-- Witness for c1_verified_gate at a concrete empty cache. -/
theorem c1_verified_gate_witness :
    Signup (fun _ => none) ⟨true, "a@x.com", true, false, true, ""⟩
      = ⟨.respondWithError 401 "Email is not verified", []⟩
    ∧ RecoverDelete (fun _ => none) ⟨"a@x.com", true, "", true, ""⟩
      = ⟨.respondWithError 401 "Email is not verified", []⟩ :=
  ⟨(c1_verified_gate (fun _ => none) ⟨true, "a@x.com", true, false, true, ""⟩
      ⟨"a@x.com", true, "", true, ""⟩).2.2.1 rfl (by simp),
   (c1_verified_gate (fun _ => none) ⟨true, "a@x.com", true, false, true, ""⟩
      ⟨"a@x.com", true, "", true, ""⟩).2.2.2 (by simp)⟩

/-- C2: VerifyCode fails with the code-not-found error when the cache has no
entry, fails with the code-mismatch error leaving the cache unchanged when
the submitted code differs from the cached string, and overwrites the entry
with `verified` when the submitted code equals the cached string. -/
theorem c2_verify_code (cache : Cache) (email userCode s : String) :
    (cache email = none →
       VerifyCode cache email userCode = (.respondWithError 400 "Code couldn\'t found!", cache))
    ∧ (cache email = some (.str s) → userCode ≠ s →
       VerifyCode cache email userCode = (.respondWithError 400 "Code doesn\'t match!", cache))
    ∧ (cache email = some (.str s) → userCode = s →
       VerifyCode cache email userCode
         = (.respondWithJSON 200 verifySuccess, cacheSet cache email (.str "verified"))) := by
  exact ⟨verifyCode_none_eq cache email userCode,
    verifyCode_mismatch_eq cache email userCode s,
    verifyCode_match_eq cache email userCode s⟩

/-- Witness for c2_verify_code on the scenario cache holding code 123456. -/
theorem c2_verify_code_witness :
    (VerifyCode (fun e => if e = "a@x.com" then some (.str "123456") else none)
        "a@x.com" "000000").1 = .respondWithError 400 "Code doesn\'t match!"
    ∧ (VerifyCode (fun e => if e = "a@x.com" then some (.str "123456") else none)
        "a@x.com" "123456").2 "a@x.com" = some (.str "verified")
    ∧ (VerifyCode (fun e => if e = "a@x.com" then some (.str "123456") else none)
        "b@y.com" "123456").1 = .respondWithError 400 "Code couldn\'t found!" := by
  refine ⟨?_, ?_, ?_⟩
  · rw [(c2_verify_code (fun e => if e = "a@x.com" then some (.str "123456") else none)
      "a@x.com" "000000" "123456").2.1 (by simp) (by decide)]
  · rw [(c2_verify_code (fun e => if e = "a@x.com" then some (.str "123456") else none)
      "a@x.com" "123456" "123456").2.2 (by simp) rfl]
    simp [cacheSet]
  · rw [(c2_verify_code (fun e => if e = "a@x.com" then some (.str "123456") else none)
      "b@y.com" "123456" "123456").1 (by simp)]

/-- The code string built by both code-request flows:
`strconv.Itoa(rand.Intn(max-min+1) + min)` with `min = 100000` and
`max = 999999`; `intn` is the value returned by `rand.Intn(900000)`,
which the generator draws from `[0, 900000)`. -/
def genCode (intn : Nat) : String := Nat.repr (intn + 100000)

/-- Outcomes of the external calls CreateCode and CreateDeleteCode make:
JSON decoding, `s.Users().FindByEmail` (`userExists` is `err == nil`), the
value drawn by `rand.Intn(900000)`, and `app.SendMail`. -/
structure CodeRequestInput where
  decodeOk : Bool
  email : String
  userExists : Bool
  intn : Nat
  sendMailOk : Bool
deriving DecidableEq

/-- Result of a code-request handler: the response, the cache after the
handler ran, whether the email dispatch was attempted, and the user-store
mutations issued (always none in these two handlers). -/
structure CodeOutcome where
  result : HResult
  cacheAfter : Cache
  mailAttempted : Bool
  effects : List StoreEffect

/-- CreateCode from auth.go: decode, reject an already-registered email,
generate a 6-digit code, store it in the cache, then dispatch the
verification email. -/
def CreateCode (cache : Cache) (inp : CodeRequestInput) : CodeOutcome :=
  if inp.decodeOk = false then
    ⟨.respondWithError 400 InvalidRequestPayload, cache, false, []⟩
  else if inp.userExists then
    ⟨.respondWithError 400 "User couldn\'t created!", cache, false, []⟩
  else
    let code := genCode inp.intn
    let cache1 := cacheSet cache inp.email (.str code)
    if inp.sendMailOk = false then
      ⟨.respondWithError 400 "Couldn\'t send email", cache1, true, []⟩
    else
      ⟨.respondWithJSON 200 codeSuccess, cache1, true, []⟩

/-- CreateDeleteCode from auth.go: decode, require the email to belong to a
registered user, generate a 6-digit code, store it in the cache, then
dispatch the deletion-verification email. -/
def CreateDeleteCode (cache : Cache) (inp : CodeRequestInput) : CodeOutcome :=
  if inp.decodeOk = false then
    ⟨.respondWithError 400 InvalidRequestPayload, cache, false, []⟩
  else if inp.userExists = false then
    ⟨.respondWithError 400 "User couldn\'t be found!", cache, false, []⟩
  else
    let code := genCode inp.intn
    let cache1 := cacheSet cache inp.email (.str code)
    if inp.sendMailOk = false then
      ⟨.respondWithError 400 "Couldn\'t send email", cache1, true, []⟩
    else
      ⟨.respondWithJSON 200 codeSuccess, cache1, true, []⟩

/-- Outcomes of the external calls Signin makes: JSON decoding,
`app.PayloadValidator`, `s.Users().FindByCredentials` (`credsOk` is
`err == nil`), `s.Subscriptions().FindByEmail` (`subFound` is `err == nil`),
and `app.CreateToken` with the transmission key it returns. -/
structure SigninInput where
  decodeOk : Bool
  payloadValid : Bool
  credsOk : Bool
  subFound : Bool
  tokenOk : Bool
  transmissionKey : String
deriving DecidableEq

/-- Signin from auth.go: decode, validate, check credentials, resolve the
subscription tier (soft: a lookup error only downgrades `pro` to `free`),
create the token, respond with token and tier. -/
def Signin (inp : SigninInput) : HResult :=
  if inp.decodeOk = false then
    .respondWithError 422 InvalidJSON
  else if inp.payloadValid = false then
    .respondWithErrors 400 InvalidRequestPayload
  else if inp.credsOk = false then
    .respondWithError 401 userLoginErr
  else
    let subscriptionType := if inp.subFound then "pro" else "free"
    if inp.tokenOk = false then
      .respondWithError 500 tokenCreateErr
    else
      .respondWithToken 200 ⟨subscriptionType, inp.transmissionKey⟩

/-- Outcome of reading the `passwall_token` cookie: a value, the
`http.ErrNoCookie` error, or any other error. -/
inductive CookieResult where
  | ok (value : String)
  | errNoCookie
  | errOther
deriving DecidableEq

/-- Outcome of `jwt.ParseWithClaims` on the cookie value: success with the
token valid flag, the error equal to `jwt.ErrSignatureInvalid`, or any
other parse error (expired or otherwise malformed token). -/
inductive JwtParseResult where
  | ok (valid : Bool)
  | errSignatureInvalid
  | errOther
deriving DecidableEq

/-- Outcomes of the external calls RefreshToken makes: the cookie read, the
JWT parse, `s.Users().FindByUUID` on the UUID from the claims,
`s.Subscriptions().FindByEmail`, and `app.RefreshTokenWithClaims`. -/
structure RefreshInput where
  cookie : CookieResult
  parse : JwtParseResult
  userFound : Bool
  subFound : Bool
  refreshOk : Bool
deriving DecidableEq

/-- RefreshToken from auth.go: cookie read (no cookie gives a bare 401,
any other cookie error a bare 400), JWT parse (signature-invalid error
gives a bare 401, any other error a bare 400, an invalid parsed token a
bare 401), user lookup by the claims UUID, soft subscription resolution,
then refresh; the refresh response carries no transmission key. -/
def RefreshToken (inp : RefreshInput) : HResult :=
  match inp.cookie with
  | .errNoCookie => .writeHeader 401
  | .errOther => .writeHeader 400
  | .ok _ =>
    match inp.parse with
    | .errSignatureInvalid => .writeHeader 401
    | .errOther => .writeHeader 400
    | .ok valid =>
      if valid = false then
        .writeHeader 401
      else if inp.userFound = false then
        .respondWithError 401 invalidUser
      else
        let subscriptionType := if inp.subFound then "pro" else "free"
        if inp.refreshOk = false then
          .respondWithError 500 tokenCreateErr
        else
          .respondWithToken 200 ⟨subscriptionType, ""⟩

/-- A JWT claim value as seen through the Go `interface\x7b\x7d`: a string
or anything else (including the nil read from a missing map key). -/
inductive JwtValue where
  | str (s : String)
  | other
deriving DecidableEq

/-- The claims of a token returned by `app.TokenValid`: either a
`jwt.MapClaims` map or some other claims type, for which the dynamic
assertion `token.Claims.(jwt.MapClaims)` panics. -/
inductive JwtClaims where
  | mapClaims (m : List (String × JwtValue))
  | otherClaims
deriving DecidableEq

/-- Model of Go `strings.Split(s, " ")` on the character list of `s`:
split around each space, yielding one more piece than there are spaces;
the empty input yields one empty piece. -/
def goSplitSpace : List Char → List (List Char)
  | [] => [[]]
  | ch :: rest =>
    match goSplitSpace rest with
    | [] => []
    | w :: ws => if ch = ' ' then [] :: w :: ws else (ch :: w) :: ws

/-- Model of Go `strings.Split(s, " ")` as a function on strings. -/
def splitSpace (s : String) : List String :=
  (goSplitSpace s.data).map List.asString

/-- Token-string extraction at the top of CheckToken:
`strings.Split(header, " ")`, use the second part when the split has
exactly two parts, otherwise leave the token string empty. -/
def bearerTokenStr (header : String) : String :=
  let strArr := splitSpace header
  if strArr.length = 2 then strArr.getD 1 "" else ""

/-- Continuation of CheckToken after the token string is extracted: empty
token gives the no-token 401, `app.TokenValid` failure the invalid-token
401; then the unguarded assertions `token.Claims.(jwt.MapClaims)` and
`claims["user_uuid"].(string)` run, panicking unless the claims are a map
with a string `user_uuid`; finally the user is looked up by that UUID. -/
def checkTokenWithStr (tokenValid : String → Option JwtClaims)
    (userFound : Bool) (tokenStr : String) : HResult :=
  if tokenStr = "" then
    .respondWithError 401 noToken
  else
    match tokenValid tokenStr with
    | none => .respondWithError 401 invalidToken
    | some claims =>
      match claims with
      | .otherClaims => .typeAssertPanic
      | .mapClaims m =>
        match m.lookup "user_uuid" with
        | some (.str _) =>
          if userFound = false then
            .respondWithError 401 invalidUser
          else
            .respondWithJSON 200 ""
        | some .other => .typeAssertPanic
        | none => .typeAssertPanic

/-- Outcomes of the external calls CheckToken makes: the `Authorization`
header, `app.TokenValid` as a function of the token string (`none` is a
validation error), and `s.Users().FindByUUID`. -/
structure CheckTokenInput where
  authHeader : String
  tokenValid : String → Option JwtClaims
  userFound : Bool

/-- CheckToken from auth.go: extract the bearer token from the
`Authorization` header, then run the continuation. -/
def CheckToken (inp : CheckTokenInput) : HResult :=
  checkTokenWithStr inp.tokenValid inp.userFound (bearerTokenStr inp.authHeader)

/-- C3: in the refresh flow, a missing cookie yields a bare 401, an
invalid-signature parse error a bare 401, any other parse error (expired or
malformed token) a bare 400, and a valid token whose claims UUID matches no
stored user the invalid-user 401 failure; a new cookie is issued only when
the cookie read, the parse with a valid token, and the user lookup all
succeed. -/
theorem c3_refresh_failures (inp : RefreshInput) :
    (inp.cookie = .errNoCookie → RefreshToken inp = .writeHeader 401)
    ∧ (∀ v, inp.cookie = .ok v → inp.parse = .errSignatureInvalid →
       RefreshToken inp = .writeHeader 401)
    ∧ (∀ v, inp.cookie = .ok v → inp.parse = .errOther →
       RefreshToken inp = .writeHeader 400)
    ∧ (∀ v, inp.cookie = .ok v → inp.parse = .ok true → inp.userFound = false →
       RefreshToken inp = .respondWithError 401 invalidUser)
    ∧ (∀ st resp, RefreshToken inp = .respondWithToken st resp →
       (∃ v, inp.cookie = .ok v) ∧ inp.parse = .ok true ∧ inp.userFound = true) := by
  refine ⟨?_, ?_, ?_, ?_, ?_⟩
  · intro h; unfold RefreshToken; rw [h]
  · intro v hc hp; unfold RefreshToken; rw [hc, hp]
  · intro v hc hp; unfold RefreshToken; rw [hc, hp]
  · intro v hc hp hu; unfold RefreshToken; rw [hc, hp]
    simp [hu]
  · intro st resp h
    unfold RefreshToken at h
    cases hc : inp.cookie with
    | errNoCookie => rw [hc] at h; exact absurd h (by simp)
    | errOther => rw [hc] at h; exact absurd h (by simp)
    | ok v =>
      rw [hc] at h
      refine ⟨⟨v, rfl⟩, ?_⟩
      cases hp : inp.parse with
      | errSignatureInvalid => rw [hp] at h; exact absurd h (by simp)
      | errOther => rw [hp] at h; exact absurd h (by simp)
      | ok valid =>
        rw [hp] at h
        cases valid with
        | false => exact absurd h (by simp)
        | true =>
          simp only [Bool.true_eq_false, if_false] at h
          cases hu : inp.userFound with
          | false => rw [hu] at h; exact absurd h (by simp)
          | true =>
            rw [hu] at h
            exact ⟨rfl, rfl⟩

/-- Witness for c3_refresh_failures at concrete refresh inputs. -/
theorem c3_refresh_failures_witness :
    RefreshToken ⟨.errNoCookie, .ok true, true, true, true⟩ = .writeHeader 401
    ∧ RefreshToken ⟨.ok "t", .errSignatureInvalid, true, true, true⟩ = .writeHeader 401
    ∧ RefreshToken ⟨.ok "t", .errOther, true, true, true⟩ = .writeHeader 400
    ∧ RefreshToken ⟨.ok "t", .ok true, false, true, true⟩
        = .respondWithError 401 invalidUser :=
  ⟨(c3_refresh_failures ⟨.errNoCookie, .ok true, true, true, true⟩).1 rfl,
   (c3_refresh_failures ⟨.ok "t", .errSignatureInvalid, true, true, true⟩).2.1 "t" rfl rfl,
   (c3_refresh_failures ⟨.ok "t", .errOther, true, true, true⟩).2.2.1 "t" rfl rfl,
   (c3_refresh_failures ⟨.ok "t", .ok true, false, true, true⟩).2.2.2.1 "t" rfl rfl rfl⟩

/-- C4: once the credential check (signin) or the token validation and user
lookup (refresh) succeed, whether the request succeeds is independent of the
subscription lookup, and the response tier is `free` exactly when the
lookup failed or found nothing and `pro` when a subscription was found. -/
theorem c4_subscription_soft (si : SigninInput) (ri : RefreshInput) :
    (si.decodeOk = true → si.payloadValid = true → si.credsOk = true →
       ((∃ st r, Signin si = .respondWithToken st r) ↔ si.tokenOk = true)
       ∧ (∀ st r, Signin si = .respondWithToken st r →
          r.type = (if si.subFound then "pro" else "free")))
    ∧ (∀ v, ri.cookie = .ok v → ri.parse = .ok true → ri.userFound = true →
       ((∃ st r, RefreshToken ri = .respondWithToken st r) ↔ ri.refreshOk = true)
       ∧ (∀ st r, RefreshToken ri = .respondWithToken st r →
          r.type = (if ri.subFound then "pro" else "free"))) := by
  constructor
  · intro hd hp hc
    unfold Signin
    rw [hd, hp, hc]
    simp only [Bool.true_eq_false, if_false]
    cases ht : si.tokenOk with
    | false => simp
    | true =>
      simp only [Bool.true_eq_false, if_false]
      constructor
      · simp
      · intro st r h
        cases h
        rfl
  · intro v hc hp hu
    unfold RefreshToken
    rw [hc, hp, hu]
    simp only [Bool.true_eq_false, if_false]
    cases hr : ri.refreshOk with
    | false => simp
    | true =>
      simp only [Bool.true_eq_false, if_false]
      constructor
      · simp
      · intro st r h
        cases h
        rfl

/-- Witness for c4_subscription_soft: concrete signin and refresh requests
whose subscription lookup failed still succeed, and their tier is `free`. -/
theorem c4_subscription_soft_witness :
    (∃ st r, Signin ⟨true, true, true, false, true, "tk"⟩ = .respondWithToken st r)
    ∧ (∃ st r, RefreshToken ⟨.ok "t", .ok true, true, false, true⟩
        = .respondWithToken st r)
    ∧ (AuthLoginResponse.mk "free" "tk").type
        = (if (SigninInput.mk true true true false true "tk").subFound
           then "pro" else "free") :=
  ⟨((c4_subscription_soft ⟨true, true, true, false, true, "tk"⟩
      ⟨.ok "t", .ok true, true, false, true⟩).1 rfl rfl rfl).1.mpr rfl,
   ((c4_subscription_soft ⟨true, true, true, false, true, "tk"⟩
      ⟨.ok "t", .ok true, true, false, true⟩).2 "t" rfl rfl rfl).1.mpr rfl,
   ((c4_subscription_soft ⟨true, true, true, false, true, "tk"⟩
      ⟨.ok "t", .ok true, true, false, true⟩).1 rfl rfl rfl).2 200 ⟨"free", "tk"⟩ rfl⟩

/-- Status classes named by the amended claim C5: the statuses the state
errors actually use are 400, 401 and 404. -/
def stateErrorClass (st : Nat) : Prop := st = 400 ∨ st = 401 ∨ st = 404

/-- C5 counterexample: the email-not-verified state error is surfaced with
status 401, which is neither 400 nor 404, refuting the claim that every
state error carries a 400- or 404-class status. -/
theorem c5_counterexample :
    (Signup (fun _ => none) ⟨true, "a@x.com", true, false, true, ""⟩).result
      = .respondWithError 401 "Email is not verified"
    ∧ ¬((401 : Nat) = 400 ∨ (401 : Nat) = 404) :=
  ⟨rfl, by decide⟩

/-- C5 amended: every state error — email not verified, code mismatch, code
not found, duplicate email, user not found — is surfaced with a 400, 401 or
404 status carrying its specific user-facing message. -/
theorem c5_amended (cache : Cache) (si : SignupInput) (ri : RecoverDeleteInput)
    (email userCode s : String) :
    (si.decodeOk = true → cache si.email ≠ some (.str "verified") →
       ∃ st, (Signup cache si).result = .respondWithError st "Email is not verified"
         ∧ stateErrorClass st)
    ∧ (cache ri.email ≠ some (.str "verified") →
       ∃ st, (RecoverDelete cache ri).result = .respondWithError st "Email is not verified"
         ∧ stateErrorClass st)
    ∧ (cache email = none →
       ∃ st, (VerifyCode cache email userCode).1 = .respondWithError st "Code couldn\'t found!"
         ∧ stateErrorClass st)
    ∧ (cache email = some (.str s) → userCode ≠ s →
       ∃ st, (VerifyCode cache email userCode).1 = .respondWithError st "Code doesn\'t match!"
         ∧ stateErrorClass st)
    ∧ (si.decodeOk = true → cache si.email = some (.str "verified") →
       si.payloadValid = true → si.userExists = true →
       ∃ st, (Signup cache si).result = .respondWithError st "User couldn\'t created!"
         ∧ stateErrorClass st)
    ∧ (cache ri.email = some (.str "verified") → ri.userFound = false →
       ∃ st, (RecoverDelete cache ri).result = .respondWithError st ri.findErrMsg
         ∧ stateErrorClass st) := by
  refine ⟨?_, ?_, ?_, ?_, ?_, ?_⟩
  · intro hd hv
    rw [signup_unverified_eq cache si hd hv]
    exact ⟨401, rfl, Or.inr (Or.inl rfl)⟩
  · intro hv
    rw [recover_unverified_eq cache ri hv]
    exact ⟨401, rfl, Or.inr (Or.inl rfl)⟩
  · intro h
    rw [verifyCode_none_eq cache email userCode h]
    exact ⟨400, rfl, Or.inl rfl⟩
  · intro h hne
    rw [verifyCode_mismatch_eq cache email userCode s h hne]
    exact ⟨400, rfl, Or.inl rfl⟩
  · intro hd hv hp hu
    have hok : isMailVerified cache si.email = .ok () :=
      (isMailVerified_ok_iff cache si.email).mpr hv
    refine ⟨400, ?_, Or.inl rfl⟩
    unfold Signup
    rw [hd, hok]
    simp [hp, hu]
  · intro hv hu
    have hok : isMailVerified cache ri.email = .ok () :=
      (isMailVerified_ok_iff cache ri.email).mpr hv
    refine ⟨404, ?_, Or.inr (Or.inr rfl)⟩
    unfold RecoverDelete
    rw [hok]
    simp [hu]

/-- Witness for c5_amended at a concrete cache and inputs. -/
theorem c5_amended_witness :
    (∃ st, (Signup (fun _ => none) ⟨true, "a@x.com", true, false, true, ""⟩).result
       = .respondWithError st "Email is not verified" ∧ stateErrorClass st)
    ∧ (∃ st, (RecoverDelete (fun e => if e = "a@x.com" then some (.str "verified") else none)
        ⟨"a@x.com", false, "record not found", true, ""⟩).result
       = .respondWithError st "record not found" ∧ stateErrorClass st) :=
  ⟨(c5_amended (fun _ => none) ⟨true, "a@x.com", true, false, true, ""⟩
      ⟨"a@x.com", false, "record not found", true, ""⟩ "" "" "").1 rfl (by simp),
   (c5_amended (fun e => if e = "a@x.com" then some (.str "verified") else none)
      ⟨true, "a@x.com", true, false, true, ""⟩
      ⟨"a@x.com", false, "record not found", true, ""⟩ "" "" "").2.2.2.2.2
      (by simp) rfl⟩

/-- C6 counterexample: a dispatch failure in CreateCode is surfaced with
status 400 and message `Couldn\x27t send email`, which is not a 500-class
status, refuting the claim that dispatch failures surface as 500-class
errors. -/
theorem c6_counterexample :
    (CreateCode (fun _ => none) ⟨true, "a@x.com", false, 0, false⟩).result
      = .respondWithError 400 "Couldn\'t send email"
    ∧ ¬(500 ≤ (400 : Nat)) :=
  ⟨rfl, by decide⟩

/-- C6 amended: any failure to dispatch the verification email in
CreateCode or CreateDeleteCode is surfaced to the caller as a 400 error
with message `Couldn\x27t send email`, and neither flow ever issues a
user-store create (or any other mutating) call. -/
theorem c6_amended (cache : Cache) (ci di : CodeRequestInput) :
    (ci.decodeOk = true → ci.userExists = false → ci.sendMailOk = false →
       (CreateCode cache ci).result = .respondWithError 400 "Couldn\'t send email")
    ∧ (CreateCode cache ci).effects = []
    ∧ (di.decodeOk = true → di.userExists = true → di.sendMailOk = false →
       (CreateDeleteCode cache di).result = .respondWithError 400 "Couldn\'t send email")
    ∧ (CreateDeleteCode cache di).effects = [] := by
  refine ⟨?_, ?_, ?_, ?_⟩
  · intro hd hu hs
    simp [CreateCode, hd, hu, hs]
  · unfold CreateCode
    split
    · rfl
    · split
      · rfl
      · split <;> rfl
  · intro hd hu hs
    simp [CreateDeleteCode, hd, hu, hs]
  · unfold CreateDeleteCode
    split
    · rfl
    · split
      · rfl
      · split <;> rfl

/-- Witness for c6_amended at a concrete failing dispatch. -/
theorem c6_amended_witness :
    (CreateCode (fun _ => none) ⟨true, "a@x.com", false, 42, false⟩).result
      = .respondWithError 400 "Couldn\'t send email"
    ∧ (CreateDeleteCode (fun _ => none) ⟨true, "a@x.com", true, 42, false⟩).result
      = .respondWithError 400 "Couldn\'t send email" :=
  ⟨(c6_amended (fun _ => none) ⟨true, "a@x.com", false, 42, false⟩
      ⟨true, "a@x.com", true, 42, false⟩).1 rfl rfl rfl,
   (c6_amended (fun _ => none) ⟨true, "a@x.com", false, 42, false⟩
      ⟨true, "a@x.com", true, 42, false⟩).2.2.1 rfl rfl rfl⟩

/-- C9: in both code-request flows the cache entry for the email is
overwritten with the newly generated code before the dispatch is attempted,
so a request failing with the dispatch error leaves the new code in the
cache (replacing any prior value); the failure does not roll the cache
back. -/
theorem c9_cache_before_dispatch (cache : Cache) (ci di : CodeRequestInput) :
    (ci.decodeOk = true → ci.userExists = false →
       (CreateCode cache ci).mailAttempted = true
       ∧ (CreateCode cache ci).cacheAfter
           = cacheSet cache ci.email (.str (genCode ci.intn)))
    ∧ ((CreateCode cache ci).result = .respondWithError 400 "Couldn\'t send email" →
       (CreateCode cache ci).cacheAfter ci.email = some (.str (genCode ci.intn)))
    ∧ (di.decodeOk = true → di.userExists = true →
       (CreateDeleteCode cache di).mailAttempted = true
       ∧ (CreateDeleteCode cache di).cacheAfter
           = cacheSet cache di.email (.str (genCode di.intn)))
    ∧ ((CreateDeleteCode cache di).result = .respondWithError 400 "Couldn\'t send email" →
       (CreateDeleteCode cache di).cacheAfter di.email = some (.str (genCode di.intn))) := by
  refine ⟨?_, ?_, ?_, ?_⟩
  · intro hd hu
    cases hs : ci.sendMailOk <;> simp [CreateCode, hd, hu, hs]
  · intro hres
    unfold CreateCode at hres ⊢
    split at hres
    · simp [InvalidRequestPayload] at hres
    · split at hres
      · simp at hres
      · split at hres <;> simp_all [cacheSet]
  · intro hd hu
    cases hs : di.sendMailOk <;> simp [CreateDeleteCode, hd, hu, hs]
  · intro hres
    unfold CreateDeleteCode at hres ⊢
    split at hres
    · simp [InvalidRequestPayload] at hres
    · split at hres
      · simp at hres
      · split at hres <;> simp_all [cacheSet]

/-- Witness for c9_cache_before_dispatch: a failing dispatch still replaces
a prior `verified` marker with the new code 123456. -/
theorem c9_cache_before_dispatch_witness :
    (CreateCode (fun _ => some (.str "verified")) ⟨true, "a@x.com", false, 23456, false⟩).cacheAfter
      "a@x.com" = some (.str (genCode 23456))
    ∧ (CreateDeleteCode (fun _ => some (.str "verified"))
        ⟨true, "a@x.com", true, 23456, false⟩).cacheAfter
      "a@x.com" = some (.str (genCode 23456)) :=
  ⟨(c9_cache_before_dispatch (fun _ => some (.str "verified"))
      ⟨true, "a@x.com", false, 23456, false⟩
      ⟨true, "a@x.com", true, 23456, false⟩).2.1 rfl,
   (c9_cache_before_dispatch (fun _ => some (.str "verified"))
      ⟨true, "a@x.com", false, 23456, false⟩
      ⟨true, "a@x.com", true, 23456, false⟩).2.2.2 rfl⟩

/-- C8: an Authorization header that does not split into exactly two
space-separated parts leaves the token string empty, so CheckToken responds
with the no-token 401 error; a header splitting into exactly two parts has
its second part used as the token string for the rest of the handler. -/
theorem c8_bearer_split (inp : CheckTokenInput) :
    ((splitSpace inp.authHeader).length ≠ 2 →
       CheckToken inp = .respondWithError 401 noToken)
    ∧ (∀ a b, splitSpace inp.authHeader = [a, b] →
       CheckToken inp = checkTokenWithStr inp.tokenValid inp.userFound b) := by
  constructor
  · intro h
    unfold CheckToken bearerTokenStr
    rw [if_neg h]
    rfl
  · intro a b hsplit
    unfold CheckToken bearerTokenStr
    rw [hsplit]
    rfl

/-- Witness for c8_bearer_split: a three-part header gets the no-token 401
regardless of the token validator, and the well-formed header hands the
second part to the continuation. -/
theorem c8_bearer_split_witness :
    CheckToken ⟨"Bearer a b", fun _ => some (.mapClaims []), true⟩
      = .respondWithError 401 noToken
    ∧ CheckToken ⟨"Bearer abc", fun _ => none, true⟩
      = checkTokenWithStr (fun _ => none) true "abc" :=
  ⟨(c8_bearer_split ⟨"Bearer a b", fun _ => some (.mapClaims []), true⟩).1 (by decide),
   (c8_bearer_split ⟨"Bearer abc", fun _ => none, true⟩).2 "Bearer" "abc" (by decide)⟩

/-- A claims value is a `jwt.MapClaims` map holding a string-valued
`user_uuid` entry. -/
def hasStringUserUUID : JwtClaims → Bool
  | .mapClaims m =>
    match m.lookup "user_uuid" with
    | some (.str _) => true
    | some .other => false
    | none => false
  | .otherClaims => false

/-- C10: once a nonempty token string passes `app.TokenValid`, CheckToken
extracts the user UUID through unguarded dynamic assertions; for a valid
token whose claims are not a map with a string `user_uuid`, the handler
reaches the assertion-failure (panic) branch instead of the no-token or
invalid-token error responses, and only tokens carrying such a claim avoid
the panic. -/
theorem c10_claims_assertion (inp : CheckTokenInput) (claims : JwtClaims)
    (hne : bearerTokenStr inp.authHeader ≠ "")
    (hvalid : inp.tokenValid (bearerTokenStr inp.authHeader) = some claims) :
    (hasStringUserUUID claims = false →
       CheckToken inp = .typeAssertPanic
       ∧ CheckToken inp ≠ .respondWithError 401 noToken
       ∧ CheckToken inp ≠ .respondWithError 401 invalidToken)
    ∧ (hasStringUserUUID claims = true → CheckToken inp ≠ .typeAssertPanic) := by
  have hck : CheckToken inp
      = checkTokenWithStr inp.tokenValid inp.userFound (bearerTokenStr inp.authHeader) := rfl
  constructor
  · intro hfalse
    have hpanic : CheckToken inp = .typeAssertPanic := by
      rw [hck]
      unfold checkTokenWithStr
      rw [if_neg hne, hvalid]
      cases claims with
      | otherClaims => rfl
      | mapClaims m =>
        simp only [hasStringUserUUID] at hfalse
        cases hl : m.lookup "user_uuid" with
        | none => simp [hl]
        | some v =>
          cases v with
          | str s => simp [hl] at hfalse
          | other => simp [hl]
    exact ⟨hpanic, by rw [hpanic]; simp, by rw [hpanic]; simp⟩
  · intro htrue
    rw [hck]
    unfold checkTokenWithStr
    rw [if_neg hne, hvalid]
    cases claims with
    | otherClaims => simp [hasStringUserUUID] at htrue
    | mapClaims m =>
      simp only [hasStringUserUUID] at htrue
      cases hl : m.lookup "user_uuid" with
      | none => simp [hl] at htrue
      | some v =>
        cases v with
        | str s =>
          simp only [hl]
          split <;> simp
        | other => simp [hl] at htrue

/-- Witness for c10_claims_assertion: a valid token whose map claims lack
`user_uuid` makes CheckToken panic, while one carrying a string `user_uuid`
does not. -/
theorem c10_claims_assertion_witness :
    CheckToken ⟨"Bearer abc", fun _ => some (.mapClaims []), true⟩ = .typeAssertPanic
    ∧ CheckToken ⟨"Bearer abc",
        fun _ => some (.mapClaims [("user_uuid", .str "u1")]), true⟩ ≠ .typeAssertPanic :=
  ⟨((c10_claims_assertion ⟨"Bearer abc", fun _ => some (.mapClaims []), true⟩
      (.mapClaims []) (by decide) (by rfl)).1 rfl).1,
   (c10_claims_assertion ⟨"Bearer abc",
      fun _ => some (.mapClaims [("user_uuid", .str "u1")]), true⟩
      (.mapClaims [("user_uuid", .str "u1")]) (by decide) (by rfl)).2 rfl⟩

/-- Each decimal digit character produced by `Nat.digitChar` below 10 is a
digit. -/
theorem digitChar_isDigit (m : Nat) (h : m < 10) : (Nat.digitChar m).isDigit = true := by
  interval_cases m <;> decide

/-- Every character `Nat.toDigitsCore` in base 10 adds to an all-digit
accumulator is a digit. -/
theorem toDigitsCore_all_isDigit (fuel : Nat) :
    ∀ (n : Nat) (ds : List Char), (∀ c ∈ ds, c.isDigit = true) →
    ∀ c ∈ Nat.toDigitsCore 10 fuel n ds, c.isDigit = true := by
  induction fuel with
  | zero =>
    intro n ds h c hc
    exact h c hc
  | succ f ih =>
    intro n ds h c hc
    have hcons : ∀ c ∈ Nat.digitChar (n % 10) :: ds, c.isDigit = true := by
      intro c' hc'
      rcases List.mem_cons.mp hc' with h1 | h2
      · subst h1; exact digitChar_isDigit _ (Nat.mod_lt _ (by norm_num))
      · exact h c' h2
    have hstep : Nat.toDigitsCore 10 (f + 1) n ds
        = if n / 10 = 0 then Nat.digitChar (n % 10) :: ds
          else Nat.toDigitsCore 10 f (n / 10) (Nat.digitChar (n % 10) :: ds) := rfl
    rw [hstep] at hc
    split at hc
    · exact hcons c hc
    · exact ih (n / 10) (Nat.digitChar (n % 10) :: ds) hcons c hc

/-- Exact output length of `Nat.toDigitsCore` in base 10: a number with
`k + 1` decimal digits and enough fuel adds exactly `k + 1` characters. -/
theorem toDigitsCore_length_exact (k : Nat) :
    ∀ (fuel n : Nat) (ds : List Char), 10 ^ k ≤ n → n < 10 ^ (k + 1) → k < fuel →
    (Nat.toDigitsCore 10 fuel n ds).length = k + 1 + ds.length := by
  induction k with
  | zero =>
    intro fuel n ds h1 h2 h3
    obtain ⟨f, rfl⟩ : ∃ f, fuel = f + 1 := ⟨fuel - 1, by omega⟩
    have hd : n / 10 = 0 := by
      rw [Nat.div_eq_zero_iff (by norm_num)]
      simpa using h2
    unfold Nat.toDigitsCore
    simp [hd]
    omega
  | succ k ih =>
    intro fuel n ds h1 h2 h3
    obtain ⟨f, rfl⟩ : ∃ f, fuel = f + 1 := ⟨fuel - 1, by omega⟩
    have h10 : (10 : Nat) ≤ 10 ^ (k + 1) := by
      calc (10 : Nat) = 10 ^ 1 := (pow_one 10).symm
      _ ≤ 10 ^ (k + 1) := Nat.pow_le_pow_right (by norm_num) (by omega)
    have hne : ¬ n / 10 = 0 := by
      rw [Nat.div_eq_zero_iff (by norm_num)]
      omega
    have hdiv1 : 10 ^ k ≤ n / 10 := by
      rw [Nat.le_div_iff_mul_le (by norm_num)]
      calc 10 ^ k * 10 = 10 ^ (k + 1) := (pow_succ 10 k).symm
      _ ≤ n := h1
    have hdiv2 : n / 10 < 10 ^ (k + 1) := by
      rw [Nat.div_lt_iff_lt_mul (by norm_num)]
      calc n < 10 ^ (k + 2) := h2
      _ = 10 ^ (k + 1) * 10 := pow_succ 10 (k + 1)
    show (if n / 10 = 0 then Nat.digitChar (n % 10) :: ds
          else Nat.toDigitsCore 10 f (n / 10) (Nat.digitChar (n % 10) :: ds)).length
        = k + 1 + 1 + ds.length
    rw [if_neg hne, ih f (n / 10) (Nat.digitChar (n % 10) :: ds) hdiv1 hdiv2 (by omega)]
    simp only [List.length_cons]
    omega

/-- Exact length of the decimal representation: a number with `k + 1`
decimal digits prints as `k + 1` characters. -/
theorem repr_length_exact (k m : Nat) (h1 : 10 ^ k ≤ m) (h2 : m < 10 ^ (k + 1)) :
    (Nat.repr m).length = k + 1 := by
  have hk : k < m + 1 := by
    have h := Nat.lt_of_lt_of_le (Nat.lt_pow_self (by norm_num) k) h1
    omega
  show (Nat.toDigitsCore 10 (m + 1) m []).length = k + 1
  rw [toDigitsCore_length_exact k (m + 1) m [] h1 h2 hk]
  simp

/-- C7: for every value the generator can draw (`intn < 900000`), the code
built by the code-request flows is the decimal string of the integer
`intn + 100000`, which lies in `[100000, 999999]`, and that string has
exactly 6 characters, all of them digits. -/
theorem c7_code_six_digits (n : Nat) (h : n < 900000) :
    genCode n = Nat.repr (n + 100000)
    ∧ 100000 ≤ n + 100000 ∧ n + 100000 ≤ 999999
    ∧ (genCode n).length = 6
    ∧ ∀ ch ∈ (genCode n).data, ch.isDigit = true := by
  have h5 : (10 : Nat) ^ 5 = 100000 := by norm_num
  have h6 : (10 : Nat) ^ 6 = 1000000 := by norm_num
  refine ⟨rfl, by omega, by omega, ?_, ?_⟩
  · exact repr_length_exact 5 (n + 100000) (by omega) (by omega)
  · intro ch hch
    have hdata : (genCode n).data
        = Nat.toDigitsCore 10 (n + 100000 + 1) (n + 100000) [] := rfl
    rw [hdata] at hch
    exact toDigitsCore_all_isDigit (n + 100000 + 1) (n + 100000) [] (by simp) ch hch

/-- Witness for c7_code_six_digits at the draw 23456, whose code is
123456. -/
theorem c7_code_six_digits_witness :
    genCode 23456 = "123456"
    ∧ (genCode 23456).length = 6
    ∧ ∀ ch ∈ (genCode 23456).data, ch.isDigit = true :=
  ⟨by decide,
   (c7_code_six_digits 23456 (by decide)).2.2.2.1,
   (c7_code_six_digits 23456 (by decide)).2.2.2.2⟩

end Passwall
